import Mathlib

/-!
Verification of the authentication/authorization gate of cnaas-nms
(src/cnaas_nms/tools/security.py): JWKS key-store refresh, bearer-token
authentication, userinfo caching in Redis, and permission evaluation.

The Python functions are shallowly embedded as explicit state-passing
functions.  Network interactions (the OIDC discovery document, the JWKS
endpoint, the userinfo endpoint) and cache availability are modelled as
deterministic oracles carried in an environment record `Env`; the mutable
process state (the JWKSStore singleton, the Redis hash and its expiry, and
effect counters used to state "exactly one refresh" style properties) is a
record `St` threaded through every call.  Python exceptions are modelled
with `Except` over an error type `PyError` mirroring the exception classes
raised or propagated by the source.
-/

namespace CnaasSecurity

/-- A JWKS signing key as stored in `JWKSStore.keys`: a JSON object with a
`kid` field plus key material.  Keys are modelled with their `kid` field
present (well-formed JWKS entries). -/
structure Key where
  kid : String
  material : String
deriving DecidableEq

/-- Decoded JWT payload claims relevant to security.py: subject, expiry,
audience and email.  Absent fields are `none`. -/
structure Claims where
  sub : Option String
  exp : Option Nat
  aud : Option String
  email : Option String
deriving DecidableEq

/-- A parsed userinfo response body (`resp.json()`), also what the Redis
cache stores (`resp.text`, which round-trips through `json.loads`). -/
structure UserInfo where
  email : Option String
  body : String
deriving DecidableEq

/-- The header segment of a structured JWT, as returned by
`jwt.get_unverified_header`. -/
structure JWTHeader where
  kid : Option String
  alg : Option String
deriving DecidableEq

/-- Semantic model of a wire token string, classified by what
`jwt.get_unverified_header` does with it: `malformedJWS` raises `JWSError`,
`legacy` raises `JWTError` (an unparseable / non-JWT legacy token), and
`structured` parses, carrying the payload claims and the kid of the key
whose material actually verifies the signature (`none` when the signature
verifies under no key). -/
inductive TokenString where
  | malformedJWS (raw : String)
  | legacy (raw : String)
  | structured (raw : String) (header : JWTHeader) (payload : Claims) (sigKid : Option String)
deriving DecidableEq

/-- Modelled from the spec: the `Token` value object from
`cnaas_nms/tools/rbac/token.py` is not among the provided sources.  Per the
spec data model it is an immutable value of the raw token string plus an
optional decoded claims map, absent when the token could not be parsed as a
structured token. -/
structure Token where
  token_string : String
  decoded_token : Option Claims
deriving DecidableEq

/-- The OIDC discovery document fetched from `OIDC_CONF_WELL_KNOWN_URL`;
`none` fields model JSON bodies missing the key (a Python `KeyError` on
subscript). -/
structure Metadata where
  jwks_uri : Option String
  userinfo_endpoint : Option String
deriving DecidableEq

/-- Outcome of a `requests` GET: `connError` models a
`requests.exceptions.ConnectionError` raised by the call itself,
`httpError` a response with an error status (so `raise_for_status` would
raise `HTTPError`), `ok` a success status.  The carried `Option` body is
the result of `.json()`: `none` models a JSON decode failure. -/
inductive GetOutcome (α : Type) where
  | connError
  | httpError (jsonBody : Option α)
  | ok (jsonBody : Option α)

/-- Outcome of the `requests` POST to the userinfo endpoint.  For
`httpError` the carried value models `json.loads(e.response.content)`:
outer `none` is malformed JSON, inner option is the `error_description`
field.  For `ok`, `none` models a JSON decode failure of `resp.json()`. -/
inductive PostOutcome where
  | connError
  | httpError (errBody : Option (Option String))
  | ok (jsonBody : Option UserInfo)

/-- The `auth_settings` configuration consulted by security.py. -/
structure AuthSettings where
  OIDC_ENABLED : Bool
  VERIFY_AUDIENCE : Bool
  AUDIENCE : String
  PERMISSIONS_DISABLED : Bool
  PERMISSIONS : List String
deriving DecidableEq

/-- The `api_settings` configuration consulted by security.py. -/
structure ApiSettings where
  JWT_ENABLED : Bool
deriving DecidableEq

/-- The environment of one validation: configuration plus deterministic
oracles for every external interaction.  `getPermissionsUser` and
`checkApiCallPermitted` model the collaborators
`cnaas_nms.tools.rbac.rbac.get_permissions_user` and
`check_if_api_call_is_permitted`, which are outside the verified core and
treated opaquely by `validate_token`. -/
structure Env where
  auth_settings : AuthSettings
  api_settings : ApiSettings
  now : Nat
  wellKnown : GetOutcome Metadata
  jwksFetch : GetOutcome (Option (List Key))
  userinfoPost : PostOutcome
  redisReadFails : Bool
  redisWriteFails : Bool
  jwtIdentityOrig : String
  getPermissionsUser : List String → Option UserInfo → List String
  checkApiCallPermitted : String → List String → Bool

/-- Effect counters used to state properties such as "exactly one refresh
call" and "the cache-read step is skipped". -/
structure Trace where
  cacheReads : Nat
  refreshCalls : Nat
  keyLookups : Nat
deriving DecidableEq

/-- The Redis state visible to security.py: the `oauth_userinfo` hash
(field = subject, value = cached userinfo) and the expiry instant of the
whole hash, `none` when no TTL is set. -/
structure RedisState where
  userinfoHash : List (String × UserInfo)
  hashExpiry : Option Nat
deriving DecidableEq

/-- The mutable process state threaded through the embedded functions:
the `JWKSStore` singleton keys, the Redis state, and the effect trace. -/
structure St where
  jwks : List Key
  redis : RedisState
  trace : Trace
deriving DecidableEq

/-- The Python exception classes raised by or propagating through
security.py, collapsed into one error type.  `invalidKey` is
`InvalidKeyError` (the spec taxonomy KeyNotFound), `invalidAudience` is
`InvalidAudienceError` (the spec taxonomy NotPermitted),
`connectionError` is the builtin `ConnectionError` raised in
`get_oauth_userinfo`, `requestsConnectionError` is an uncaught
`requests.exceptions.ConnectionError`, `jsonDecodeError` and `keyError`
and `typeError` are uncaught Python exceptions of those kinds. -/
inductive PyError where
  | invalidToken (msg : String)
  | expiredSignature
  | invalidKey
  | invalidAudience
  | connectionError (msg : String)
  | requestsConnectionError
  | jsonDecodeError
  | keyError (msg : String)
  | typeError
deriving DecidableEq

/-- Result of `authenticate_token`: the string literal returned when OIDC
is disabled, or a `Token` object. -/
inductive AuthResult where
  | noTokenNeeded
  | token (t : Token)
deriving DecidableEq

/-- `redis.hget(REDIS_OAUTH_USERINFO_KEY, field)`. -/
def hget (r : RedisState) (field : String) : Option UserInfo :=
  (r.userinfoHash.find? (fun p => p.1 == field)).map Prod.snd

/-- `redis.hsetnx(REDIS_OAUTH_USERINFO_KEY, field, v)`: set the hash field
only when it does not exist yet. -/
def hsetnx (r : RedisState) (field : String) (v : UserInfo) : RedisState :=
  if (r.userinfoHash.find? (fun p => p.1 == field)).isSome then r
  else { r with userinfoHash := r.userinfoHash ++ [(field, v)] }

/-- `redis.expireat(key, t, lt=True)` on the expiry instant of the hash:
set the expiry only when the new instant is earlier than the current one
(a key without TTL counts as infinite, so it is always set). -/
def expireAtLT (cur : Option Nat) (t : Nat) : Option Nat :=
  match cur with
  | none => some t
  | some c => if t < c then some t else some c

/-- The remote part of `get_oauth_userinfo`, a pure function of the
environment: fetch the discovery document with `raise_for_status` (HTTP
error and connection error are translated to builtin `ConnectionError`),
extract `userinfo_endpoint` (a missing field is an uncaught `KeyError`, a
JSON decode failure is uncaught too), then POST to the userinfo endpoint
(an HTTP error becomes `InvalidTokenError` built from the error body, a
connection error propagates uncaught, malformed response JSON becomes
`InvalidTokenError`). -/
def userinfoRemote (env : Env) : Except PyError UserInfo :=
  match env.wellKnown with
  | .connError => .error (.connectionError "OIDC metadata unavailable")
  | .httpError _ => .error (.connectionError "Cant reach the OIDC URL")
  | .ok none => .error .jsonDecodeError
  | .ok (some md) =>
    match md.userinfo_endpoint with
    | none => .error (.keyError "userinfo_endpoint")
    | some _ =>
      match env.userinfoPost with
      | .connError => .error .requestsConnectionError
      | .httpError (some (some desc)) => .error (.invalidToken desc)
      | .httpError (some none) => .error (.invalidToken "raw error body")
      | .httpError none => .error (.invalidToken "raw error body")
      | .ok none => .error (.invalidToken "Invalid JSON in userinfo response")
      | .ok (some u) => .ok u

/-- The cache write-through after a successful userinfo fetch: `hsetnx`
under the subject, then `expireat` at `min(exp, now + 3600)` with the
less-than flag — executed only when the decoded token has an `exp` claim;
a missing `sub` during the write raises `KeyError`, caught and logged, and
Redis errors during the write are caught and logged, so in those cases the
Redis state is unchanged. -/
def writeUserinfoCache (env : Env) (token : Token) (u : UserInfo) (r : RedisState) : RedisState :=
  if env.redisWriteFails then r
  else
    match token.decoded_token with
    | none => r
    | some c =>
      match c.exp with
      | none => r
      | some e =>
        match c.sub with
        | none => r
        | some s =>
          let r1 := hsetnx r s u
          { r1 with hashExpiry := expireAtLT r1.hashExpiry (min e (env.now + 3600)) }

/-- `get_oauth_userinfo(token)` from security.py.  Returns `none` when
OIDC is disabled; otherwise tries the Redis cache first (backend errors
and a missing subject claim are logged and treated as a miss, and for a
token without decoded claims no subject is known so no read happens), then
performs the remote introspection `userinfoRemote`, and on success writes
through the cache with `writeUserinfoCache` and returns the userinfo. -/
def get_oauth_userinfo (env : Env) (token : Token) (st : St) :
    Except PyError (Option UserInfo) × St :=
  if env.auth_settings.OIDC_ENABLED then
    let cacheResult : Option UserInfo × St :=
      match token.decoded_token.bind Claims.sub with
      | none => (none, st)
      | some s =>
        if env.redisReadFails then (none, st)
        else
          ((hget st.redis s),
           { st with trace := { st.trace with cacheReads := st.trace.cacheReads + 1 } })
    match cacheResult with
    | (some u, st1) => (.ok (some u), st1)
    | (none, st1) =>
      match userinfoRemote env with
      | .error e => (.error e, st1)
      | .ok u => (.ok (some u), { st1 with redis := writeUserinfoCache env token u st1.redis })
  else (.ok none, st)

/-- The new key list produced by a `get_keys` refresh, as a pure function
of the environment: fetch the discovery document (no `raise_for_status`,
so an HTTP error status is not raised and its body is still parsed),
extract `jwks_uri` (a missing field is a `KeyError`, caught and re-raised
as `InvalidKeyError`), fetch the JWKS endpoint, extract `keys` (same
`KeyError` handling).  Connection errors and JSON decode failures are not
caught by `get_keys` and propagate as-is. -/
def refreshResult (env : Env) : Except PyError (List Key) :=
  match env.wellKnown with
  | .connError => .error .requestsConnectionError
  | .httpError mdOpt | .ok mdOpt =>
    match mdOpt with
    | none => .error .jsonDecodeError
    | some md =>
      match md.jwks_uri with
      | none => .error .invalidKey
      | some _ =>
        match env.jwksFetch with
        | .connError => .error .requestsConnectionError
        | .httpError kOpt | .ok kOpt =>
          match kOpt with
          | none => .error .jsonDecodeError
          | some keysField =>
            match keysField with
            | none => .error .invalidKey
            | some ks => .ok ks

/-- `MyBearerTokenValidator.get_keys` from security.py: perform a refresh
and install the fetched key list in the `JWKSStore` singleton; on failure
the store keeps its previous snapshot (the assignment is the last step).
The refresh-attempt counter is bumped on every call. -/
def get_keys (env : Env) (st : St) : Except PyError Unit × St :=
  let st0 := { st with trace := { st.trace with refreshCalls := st.trace.refreshCalls + 1 } }
  match refreshResult env with
  | .error e => (.error e, st0)
  | .ok ks => (.ok (), { st0 with jwks := ks })

/-- The list-comprehension lookup `[k for k in jwks_store.keys if k["kid"] == kid]`. -/
def lookupKid (keys : List Key) (kid : Option String) : List Key :=
  keys.filter (fun k => some k.kid == kid)

/-- `MyBearerTokenValidator.get_key` from security.py: look the kid up in
the store; on a miss call `get_keys` once, fail with `InvalidKeyError`
when the store is still empty, retry the lookup once, and fail with
`InvalidKeyError` when the kid is still absent.  The lookup counter is
bumped at each lookup. -/
def get_key (env : Env) (kid : Option String) (st : St) :
    Except PyError (List Key) × St :=
  let st1 := { st with trace := { st.trace with keyLookups := st.trace.keyLookups + 1 } }
  let key := lookupKid st.jwks kid
  if key.isEmpty then
    match get_keys env st1 with
    | (.error e, st2) => (.error e, st2)
    | (.ok _, st2) =>
      if st2.jwks.isEmpty then (.error .invalidKey, st2)
      else
        let st3 := { st2 with trace := { st2.trace with keyLookups := st2.trace.keyLookups + 1 } }
        let key2 := lookupKid st2.jwks kid
        if key2.isEmpty then (.error .invalidKey, st3)
        else (.ok key2, st3)
  else (.ok key, st1)

/-- Outcome of `jose.jwt.decode`: success with the claims, an
`ExpiredSignatureError`, or a `JWTError` (which subsumes the
`JWTClaimsError` raised on an audience mismatch and the signature
verification failure). -/
inductive JoseDecodeOutcome where
  | ok (claims : Claims)
  | expiredSignature
  | jwtError (msg : String)
deriving DecidableEq

/-- Whether jose considers the payload expired: an `exp` claim strictly in
the past; a missing `exp` is not an expiry failure. -/
def payloadExpired (payload : Claims) (now : Nat) : Bool :=
  match payload.exp with
  | some e => e < now
  | none => false

/-- Model of `jose.jwt.decode(token_string, key, algorithms, audience,
options)`: the signature must verify under one of the supplied keys, then
the expiry claim is checked, then the audience claim is checked when
`verify_aud` is enabled. -/
def joseDecode (payload : Claims) (sigKid : Option String) (keys : List Key)
    (audience : String) (verifyAud : Bool) (now : Nat) : JoseDecodeOutcome :=
  if keys.any (fun k => some k.kid == sigKid) then
    if payloadExpired payload now then .expiredSignature
    else if verifyAud && !(payload.aud == some audience) then .jwtError "Invalid audience"
    else .ok payload
  else .jwtError "Signature verification failed"

/-- `MyBearerTokenValidator.authenticate_token` from security.py.  When
OIDC is disabled, return the no-token-needed marker.  Decode the header:
a `JWSError` becomes `InvalidTokenError`; a `JWTError` (legacy token)
builds a `Token` with no decoded claims, resolves userinfo for it (any
failure propagates) and returns that token.  Otherwise resolve the key by
kid via `get_key`, decode via jose, and map `ExpiredSignatureError` and
`JWTError` to the corresponding raised exceptions; on success return a
`Token` carrying the decoded claims. -/
def authenticate_token (env : Env) (ts : TokenString) (st : St) :
    Except PyError AuthResult × St :=
  if env.auth_settings.OIDC_ENABLED then
    match ts with
    | .malformedJWS _ => (.error (.invalidToken "JWSError"), st)
    | .legacy raw =>
      match get_oauth_userinfo env ⟨raw, none⟩ st with
      | (.ok _, st1) => (.ok (.token ⟨raw, none⟩), st1)
      | (.error e, st1) => (.error e, st1)
    | .structured raw hdr payload sigKid =>
      match get_key env hdr.kid st with
      | (.error e, st1) => (.error e, st1)
      | (.ok key, st1) =>
        match joseDecode payload sigKid key env.auth_settings.AUDIENCE
            env.auth_settings.VERIFY_AUDIENCE env.now with
        | .expiredSignature => (.error .expiredSignature, st1)
        | .jwtError m => (.error (.invalidToken m), st1)
        | .ok decoded => (.ok (.token ⟨raw, some decoded⟩), st1)
  else (.ok .noTokenNeeded, st)

/-- The scope test `scopes is not None and "always_permitted" in scopes`. -/
def scopesContainAlwaysPermitted (scopes : Option (List String)) : Bool :=
  match scopes with
  | none => false
  | some l => l.contains "always_permitted"

/-- `MyBearerTokenValidator.validate_token` from security.py: allow when
permissions are globally disabled; allow when the requested scopes carry
the always-permitted sentinel; deny with `InvalidAudienceError` when the
rule table is empty; otherwise resolve userinfo, compute the permission
set through the rbac collaborator, and deny with `InvalidAudienceError`
when it is empty or the request does not match it. -/
def validate_token (env : Env) (token : Token) (scopes : Option (List String))
    (request : String) (st : St) : Except PyError Token × St :=
  if env.auth_settings.PERMISSIONS_DISABLED then (.ok token, st)
  else if scopesContainAlwaysPermitted scopes then (.ok token, st)
  else if env.auth_settings.PERMISSIONS.isEmpty then (.error .invalidAudience, st)
  else
    match get_oauth_userinfo env token st with
    | (.error e, st1) => (.error e, st1)
    | (.ok user_info, st1) =>
      let permissions := env.getPermissionsUser env.auth_settings.PERMISSIONS user_info
      if permissions.length == 0 then (.error .invalidAudience, st1)
      else if env.checkApiCallPermitted request permissions then (.ok token, st1)
      else (.error .invalidAudience, st1)

/-- `get_jwt_identity` from security.py: the original flask identity when
JWT checking is enabled, the fixed string "admin" otherwise. -/
def get_jwt_identity (env : Env) : String :=
  if env.api_settings.JWT_ENABLED then env.jwtIdentityOrig else "admin"

/-- `get_oauth_identity` from security.py: the fixed string "Admin" when
OIDC is disabled; otherwise resolve userinfo for the current token and
return its email claim, raising `KeyError` when it is absent.  The
`typeError` branch models subscripting the `None` userinfo, unreachable
because OIDC is enabled on that path. -/
def get_oauth_identity (env : Env) (current_token : Token) (st : St) :
    Except PyError String × St :=
  if env.auth_settings.OIDC_ENABLED then
    match get_oauth_userinfo env current_token st with
    | (.error e, st1) => (.error e, st1)
    | (.ok none, st1) => (.error .typeError, st1)
    | (.ok (some u), st1) =>
      match u.email with
      | none => (.error (.keyError "Email is a required claim for oauth"), st1)
      | some em => (.ok em, st1)
  else (.ok "Admin", st)

/-- A JWKS key fixture with kid k1. -/
def keyK1 : Key := ⟨"k1", "material one"⟩

/-- A discovery document fixture with both endpoints present. -/
def mdDefault : Metadata := ⟨some "jwks endpoint", some "userinfo endpoint"⟩

/-- A userinfo response fixture. -/
def uiDefault : UserInfo := ⟨some "user at example dot com", "userinfo body"⟩

/-- All-zero effect counters. -/
def traceZero : Trace := ⟨0, 0, 0⟩

/-- An empty Redis state with no TTL. -/
def redisEmpty : RedisState := ⟨[], none⟩

/-- Process state with an empty key store. -/
def stEmpty : St := ⟨[], redisEmpty, traceZero⟩

/-- Process state whose key store holds exactly the key k1. -/
def stWithK1 : St := ⟨[keyK1], redisEmpty, traceZero⟩

/-- A healthy environment: OIDC enabled, audience verification on, all
remote endpoints reachable and well-formed, permissions rule table empty. -/
def envDefault : Env :=
  ⟨⟨true, true, "cnaas", false, []⟩, ⟨true⟩, 1000,
   .ok (some mdDefault), .ok (some (some [keyK1])), .ok (some uiDefault),
   false, false, "orig identity", fun _ _ => [], fun _ _ => false⟩

/-- An environment in which every remote call raises a requests
connection error (provider unreachable). -/
def envUnreachable : Env :=
  ⟨⟨true, true, "cnaas", false, []⟩, ⟨true⟩, 1000,
   .connError, .connError, .connError,
   false, false, "orig identity", fun _ _ => [], fun _ _ => false⟩

/-- An environment whose discovery document is missing the jwks location
field, so a key refresh fails with a caught KeyError. -/
def envMissingFields : Env :=
  ⟨⟨true, true, "cnaas", false, []⟩, ⟨true⟩, 1000,
   .ok (some ⟨none, some "userinfo endpoint"⟩), .ok (some (some [keyK1])), .ok (some uiDefault),
   false, false, "orig identity", fun _ _ => [], fun _ _ => false⟩

/-- A token object without decoded claims (legacy path). -/
def tokLegacy : Token := ⟨"legacy token string", none⟩

/-- Claims fixture for the happy-path token: subject, expiry 2000,
matching audience. -/
def claimsC1 : Claims := ⟨some "subject one", some 2000, some "cnaas", some "user"⟩

/-- Claims fixture with subject and expiry only. -/
def claimsC7 : Claims := ⟨some "subject seven", some 2000, none, none⟩

/-- hsetnx never touches the hash expiry. -/
theorem hsetnx_hashExpiry (r : RedisState) (f : String) (v : UserInfo) :
    (hsetnx r f v).hashExpiry = r.hashExpiry := by
  unfold hsetnx
  split <;> rfl

/-- A kid present in the store makes the first lookup of get_key hit:
no refresh, the matching keys are returned, one lookup is counted. -/
theorem get_key_hit (env : Env) (st : St) (kid : Option String)
    (h : (lookupKid st.jwks kid).isEmpty = false) :
    get_key env kid st = (.ok (lookupKid st.jwks kid),
      { st with trace := { st.trace with keyLookups := st.trace.keyLookups + 1 } }) := by
  simp [get_key, h]

/-- Claim C1: for every token string with a valid signature under a key
whose identifier is present in the key store, an unexpired expiry claim,
and (when audience verification is enabled) an audience matching the
configured audience, authenticate_token succeeds and returns a Token whose
decoded claims equal the token's decoded payload. -/
theorem c1_valid_token_authenticates (env : Env) (st : St) (raw : String)
    (hdr : JWTHeader) (payload : Claims) (kid : String) (e : Nat)
    (hOidc : env.auth_settings.OIDC_ENABLED = true)
    (hKid : hdr.kid = some kid)
    (hInStore : ∃ k ∈ st.jwks, k.kid = kid)
    (hExp : payload.exp = some e)
    (hUnexpired : env.now ≤ e)
    (hAud : env.auth_settings.VERIFY_AUDIENCE = true →
      payload.aud = some env.auth_settings.AUDIENCE) :
    (authenticate_token env (.structured raw hdr payload (some kid)) st).1
      = .ok (.token ⟨raw, some payload⟩) := by
  obtain ⟨k0, hk0mem, hk0kid⟩ := hInStore
  have hmem : k0 ∈ lookupKid st.jwks (some kid) := by
    simp [lookupKid, List.mem_filter, hk0mem, hk0kid]
  have hne : (lookupKid st.jwks (some kid)).isEmpty = false := by
    cases hl : lookupKid st.jwks (some kid) with
    | nil => rw [hl] at hmem; exact absurd hmem (List.not_mem_nil k0)
    | cons a l => rfl
  have hany : (lookupKid st.jwks (some kid)).any (fun k => some k.kid == some kid) = true := by
    apply List.any_eq_true.mpr
    exact ⟨k0, hmem, by simp [hk0kid]⟩
  have hdec : joseDecode payload (some kid) (lookupKid st.jwks (some kid))
      env.auth_settings.AUDIENCE env.auth_settings.VERIFY_AUDIENCE env.now = .ok payload := by
    have hnex : payloadExpired payload env.now = false := by
      simp [payloadExpired, hExp, Nat.not_lt.mpr hUnexpired]
    cases hv : env.auth_settings.VERIFY_AUDIENCE with
    | false =>
      simp [joseDecode, hany, hnex]
      exact ⟨k0, hmem, hk0kid⟩
    | true =>
      simp [joseDecode, hany, hnex, hAud hv]
      exact ⟨k0, hmem, hk0kid⟩
  simp [authenticate_token, hOidc, hKid, get_key_hit env st (some kid) hne, hdec]

/-- Witness for C1: a concrete healthy environment, a key store holding
k1, and a token signed by k1 with future expiry and matching audience. -/
theorem c1_witness :
    (authenticate_token envDefault
      (.structured "token one" ⟨some "k1", some "RS256"⟩ claimsC1 (some "k1")) stWithK1).1
      = .ok (.token ⟨"token one", some claimsC1⟩) :=
  c1_valid_token_authenticates envDefault stWithK1 "token one"
    ⟨some "k1", some "RS256"⟩ claimsC1 "k1" 2000 rfl rfl
    ⟨keyK1, by simp [stWithK1], rfl⟩ rfl (by decide) (fun _ => rfl)

/-- For a token without decoded claims, resolution skips the cache read
(no subject is known) and the cache write, so the outcome is entirely the
remote outcome and the process state is unchanged. -/
theorem get_oauth_userinfo_no_claims (env : Env) (raw : String) (st : St) :
    get_oauth_userinfo env ⟨raw, none⟩ st
      = if env.auth_settings.OIDC_ENABLED then
          (match userinfoRemote env with
           | .error e => (.error e, st)
           | .ok u => (.ok (some u), st))
        else (.ok none, st) := by
  cases hO : env.auth_settings.OIDC_ENABLED <;>
    cases hR : userinfoRemote env <;>
    simp [get_oauth_userinfo, writeUserinfoCache, hO, hR]

/-- Claim C2: for every token string whose header segment cannot be
parsed, authenticate_token does not hard-fail: it resolves identity for
the raw string through the identity-cache/remote-introspection path with
the cache-read step skipped (the cache-read counter is unchanged), returns
the raw token as an identified Token without decoded claims when
resolution succeeds, and fails with InvalidToken only when the resolution
itself failed with that InvalidToken. -/
theorem c2_legacy_token_resolution (env : Env) (st : St) (raw : String)
    (hOidc : env.auth_settings.OIDC_ENABLED = true) :
    ((authenticate_token env (.legacy raw) st).2.trace.cacheReads = st.trace.cacheReads) ∧
    (∀ u st1, get_oauth_userinfo env ⟨raw, none⟩ st = (.ok u, st1) →
      authenticate_token env (.legacy raw) st = (.ok (.token ⟨raw, none⟩), st1)) ∧
    (∀ m, (authenticate_token env (.legacy raw) st).1 = .error (.invalidToken m) →
      (get_oauth_userinfo env ⟨raw, none⟩ st).1 = .error (.invalidToken m)) := by
  have hu := get_oauth_userinfo_no_claims env raw st
  rw [hOidc] at hu
  simp only [if_true] at hu
  refine ⟨?_, ?_, ?_⟩
  · cases hR : userinfoRemote env <;> rw [hR] at hu <;>
      simp [authenticate_token, hOidc, hu]
  · intro u st1 h1
    simp [authenticate_token, hOidc, h1]
  · intro m hm
    cases hR : userinfoRemote env with
    | error e =>
      rw [hR] at hu
      rw [hu]
      simp [authenticate_token, hOidc, hu] at hm
      simp [hm]
    | ok u =>
      rw [hR] at hu
      simp [authenticate_token, hOidc, hu] at hm

/-- Witness for C2: in the healthy environment, an unparseable token
string is resolved remotely and accepted as an identified Token with no
decoded claims, with the state untouched. -/
theorem c2_witness :
    authenticate_token envDefault (.legacy "legacy token string") stEmpty
      = (.ok (.token ⟨"legacy token string", none⟩), stEmpty) :=
  (c2_legacy_token_resolution envDefault stEmpty "legacy token string" rfl).2.1
    (some uiDefault) stEmpty rfl

/-- Claim C3: a token whose key identifier is absent from the key store
triggers exactly one refresh call and at most one re-lookup, and when the
refresh completes and the identifier is still absent, key resolution fails
with KeyNotFound (InvalidKeyError). -/
theorem c3_key_miss_single_refresh (env : Env) (st : St) (kid : String)
    (hAbsent : lookupKid st.jwks (some kid) = []) :
    ((get_key env (some kid) st).2.trace.refreshCalls = st.trace.refreshCalls + 1) ∧
    ((get_key env (some kid) st).2.trace.keyLookups ≤ st.trace.keyLookups + 2) ∧
    (∀ ks, refreshResult env = .ok ks → lookupKid ks (some kid) = [] →
      (get_key env (some kid) st).1 = .error PyError.invalidKey) := by
  cases hR : refreshResult env with
  | error e =>
    refine ⟨?_, ?_, ?_⟩
    · simp [get_key, get_keys, hAbsent, hR]
    · simp [get_key, get_keys, hAbsent, hR]
    · intro ks hok hl2
      cases hok
  | ok ks =>
    cases hks : ks.isEmpty with
    | true =>
      refine ⟨?_, ?_, ?_⟩ <;>
        simp [get_key, get_keys, hAbsent, hR, hks]
    | false =>
      cases hl : (lookupKid ks (some kid)).isEmpty with
      | true =>
        refine ⟨?_, ?_, ?_⟩ <;>
          simp [get_key, get_keys, hAbsent, hR, hks, hl]
      | false =>
        refine ⟨?_, ?_, ?_⟩
        · simp [get_key, get_keys, hAbsent, hR, hks, hl]
        · simp [get_key, get_keys, hAbsent, hR, hks, hl]
        · intro ks2 hok hl2
          injection hok with h
          subst h
          rw [hl2] at hl
          simp at hl

/-- Witness for C3: empty key store, refresh downloads only k1, the token
asks for k9, so after the single refresh and one re-lookup the resolution
fails with InvalidKeyError. -/
theorem c3_witness :
    (get_key envDefault (some "k9") stEmpty).1 = .error PyError.invalidKey :=
  (c3_key_miss_single_refresh envDefault stEmpty "k9" rfl).2.2 [keyK1] rfl (by decide)

/-- Claim C4 counterexample: with the remote provider unreachable, the
refresh raises a requests connection error that get_keys does not catch
(it only catches KeyError and HTTPError), so key resolution fails with
that propagated connection error and not with KeyNotFound
(InvalidKeyError). -/
theorem c4_counterexample :
    (get_key envUnreachable (some "k1") stEmpty).1
        = .error PyError.requestsConnectionError ∧
    PyError.requestsConnectionError ≠ PyError.invalidKey := by
  constructor
  · rfl
  · intro h
    cases h

/-- Claim C4 amended: when the key identifier is absent and the single
refresh call itself fails, key resolution fails with the refresh's own
error — KeyNotFound (InvalidKeyError) when the provider response lacks
the expected fields, but a propagated connection error, not KeyNotFound,
when the remote provider is unreachable. -/
theorem c4_refresh_failure_propagates (env : Env) (st : St) (kid : String) (e : PyError)
    (hAbsent : lookupKid st.jwks (some kid) = [])
    (hFail : refreshResult env = .error e) :
    (get_key env (some kid) st).1 = .error e := by
  simp [get_key, get_keys, hAbsent, hFail]

/-- Witness for C4 amended: a discovery document missing the jwks
location makes the refresh fail with the caught KeyError re-raised as
InvalidKeyError, and key resolution fails with exactly that error. -/
theorem c4_witness :
    (get_key envMissingFields (some "k1") stEmpty).1 = .error PyError.invalidKey :=
  c4_refresh_failure_propagates envMissingFields stEmpty "k1" PyError.invalidKey rfl rfl

/-- Claim C5: for every token, claims content, rule table (including an
empty one) and request, if the requested scopes include the sentinel
always-permitted scope then validate_token allows the request, leaving the
state untouched (no claim inspection, no rule-table inspection, no
resolution call). -/
theorem c5_always_permitted_allows (env : Env) (token : Token) (l : List String)
    (request : String) (st : St)
    (hScope : l.contains "always_permitted" = true) :
    validate_token env token (some l) request st = (.ok token, st) := by
  have hmem : "always_permitted" ∈ l := by
    simpa using hScope
  cases hP : env.auth_settings.PERMISSIONS_DISABLED <;>
    simp [validate_token, scopesContainAlwaysPermitted, hScope, hmem, hP]

/-- Witness for C5: empty rule table, permissions enabled, a request with
the always-permitted scope is allowed. -/
theorem c5_witness :
    validate_token envDefault tokLegacy (some ["always_permitted"]) "GET devices" stEmpty
      = (.ok tokLegacy, stEmpty) :=
  c5_always_permitted_allows envDefault tokLegacy ["always_permitted"] "GET devices" stEmpty rfl

/-- Claim C6 counterexample: with permissions enabled and an empty rule
table, a request whose scopes carry the always-permitted sentinel is still
allowed, so validate_token does not deny every request in that
configuration. -/
theorem c6_counterexample :
    envDefault.auth_settings.PERMISSIONS_DISABLED = false ∧
    envDefault.auth_settings.PERMISSIONS = [] ∧
    validate_token envDefault tokLegacy (some ["always_permitted"]) "DELETE devices" stEmpty
      = (.ok tokLegacy, stEmpty) :=
  ⟨rfl, rfl, rfl⟩

/-- Claim C6 amended: when the process-wide permissions-disabled flag is
not set and the rule table is empty, validate_token denies every request
whose requested scopes do not include the always-permitted sentinel. -/
theorem c6_empty_rules_deny (env : Env) (token : Token) (scopes : Option (List String))
    (request : String) (st : St)
    (hFlag : env.auth_settings.PERMISSIONS_DISABLED = false)
    (hRules : env.auth_settings.PERMISSIONS = [])
    (hScope : scopesContainAlwaysPermitted scopes = false) :
    (validate_token env token scopes request st).1 = .error PyError.invalidAudience := by
  simp [validate_token, hFlag, hRules, hScope]

/-- Witness for C6 amended: empty rule table, no scopes, the request is
denied with InvalidAudienceError. -/
theorem c6_witness :
    (validate_token envDefault tokLegacy none "DELETE devices" stEmpty).1
      = .error PyError.invalidAudience :=
  c6_empty_rules_deny envDefault tokLegacy none "DELETE devices" stEmpty rfl rfl rfl

/-- Claim C7: on a successful remote identity resolution that writes the
cache (decoded claims with subject and expiry present, cache miss, remote
fetch succeeds, Redis write succeeds), the resulting hash expiry is the
set-if-earlier combination of the previous expiry with
min(token expiry, now + 3600); in particular with no previous expiry it
equals min(token expiry, now + 3600), and a previously stored shorter
expiry is never overwritten by a later, longer one. -/
theorem c7_cache_write_expiry (env : Env) (st : St) (raw : String) (c : Claims)
    (s : String) (e : Nat) (md : Metadata) (ep : String) (u : UserInfo)
    (hOidc : env.auth_settings.OIDC_ENABLED = true)
    (hSub : c.sub = some s)
    (hExp : c.exp = some e)
    (hReadOk : env.redisReadFails = false)
    (hMiss : hget st.redis s = none)
    (hWK : env.wellKnown = .ok (some md))
    (hEp : md.userinfo_endpoint = some ep)
    (hPost : env.userinfoPost = .ok (some u))
    (hWriteOk : env.redisWriteFails = false) :
    ((get_oauth_userinfo env ⟨raw, some c⟩ st).1 = .ok (some u)) ∧
    ((get_oauth_userinfo env ⟨raw, some c⟩ st).2.redis.hashExpiry
        = expireAtLT st.redis.hashExpiry (min e (env.now + 3600))) ∧
    (st.redis.hashExpiry = none →
      (get_oauth_userinfo env ⟨raw, some c⟩ st).2.redis.hashExpiry
        = some (min e (env.now + 3600))) ∧
    (∀ c0, st.redis.hashExpiry = some c0 → c0 < min e (env.now + 3600) →
      (get_oauth_userinfo env ⟨raw, some c⟩ st).2.redis.hashExpiry = some c0) := by
  have hRemote : userinfoRemote env = .ok u := by
    simp [userinfoRemote, hWK, hEp, hPost]
  have hMain : (get_oauth_userinfo env ⟨raw, some c⟩ st).2.redis.hashExpiry
      = expireAtLT st.redis.hashExpiry (min e (env.now + 3600)) := by
    simp [get_oauth_userinfo, hOidc, hSub, hReadOk, hMiss, hRemote,
      writeUserinfoCache, hWriteOk, hExp, hsetnx_hashExpiry]
  refine ⟨?_, hMain, ?_, ?_⟩
  · simp [get_oauth_userinfo, hOidc, hSub, hReadOk, hMiss, hRemote]
  · intro h0
    rw [hMain, h0]
    rfl
  · intro c0 h0 hlt
    rw [hMain, h0]
    simp [expireAtLT, Nat.not_lt.mpr (Nat.le_of_lt hlt)]

/-- Witness for C7: healthy environment, empty cache with no TTL, token
expiry 2000 earlier than now + 3600 = 4600; the hash expiry becomes 2000. -/
theorem c7_witness :
    (get_oauth_userinfo envDefault ⟨"token seven", some claimsC7⟩ stEmpty).2.redis.hashExpiry
      = some (min 2000 (envDefault.now + 3600)) :=
  (c7_cache_write_expiry envDefault stEmpty "token seven" claimsC7 "subject seven" 2000
    mdDefault "userinfo endpoint" uiDefault rfl rfl rfl rfl rfl rfl rfl rfl rfl).2.2.1 rfl

/-- The remote introspection step never fails with InvalidAudienceError:
its failures are connection errors, uncaught JSON or key errors, and
InvalidTokenError. -/
theorem userinfoRemote_not_invalidAudience (env : Env) (e : PyError)
    (h : userinfoRemote env = .error e) : e ≠ PyError.invalidAudience := by
  unfold userinfoRemote at h
  repeat' split at h
  all_goals cases h
  all_goals intro hc
  all_goals cases hc

/-- A key refresh never fails with InvalidAudienceError: its failures are
propagated connection errors, uncaught JSON decode errors, and
InvalidKeyError. -/
theorem refreshResult_not_invalidAudience (env : Env) (e : PyError)
    (h : refreshResult env = .error e) : e ≠ PyError.invalidAudience := by
  unfold refreshResult at h
  repeat' split at h
  all_goals cases h
  all_goals intro hc
  all_goals cases hc

/-- Every failure of get_oauth_userinfo is a failure of its remote step:
the cache path never raises. -/
theorem get_oauth_userinfo_error_remote (env : Env) (token : Token) (st : St) (e : PyError)
    (h : (get_oauth_userinfo env token st).1 = .error e) :
    userinfoRemote env = .error e := by
  cases hO : env.auth_settings.OIDC_ENABLED with
  | false => simp [get_oauth_userinfo, hO] at h
  | true =>
    cases hR : userinfoRemote env with
    | ok u =>
      cases hS : token.decoded_token.bind Claims.sub with
      | none => simp [get_oauth_userinfo, hO, hR, hS] at h
      | some s =>
        cases hF : env.redisReadFails with
        | true => simp [get_oauth_userinfo, hO, hR, hS, hF] at h
        | false =>
          cases hG : hget st.redis s with
          | none => simp [get_oauth_userinfo, hO, hR, hS, hF, hG] at h
          | some u2 => simp [get_oauth_userinfo, hO, hR, hS, hF, hG] at h
    | error e2 =>
      cases hS : token.decoded_token.bind Claims.sub with
      | none =>
        simp [get_oauth_userinfo, hO, hR, hS] at h
        rw [h]
      | some s =>
        cases hF : env.redisReadFails with
        | true =>
          simp [get_oauth_userinfo, hO, hR, hS, hF] at h
          rw [h]
        | false =>
          cases hG : hget st.redis s with
          | none =>
            simp [get_oauth_userinfo, hO, hR, hS, hF, hG] at h
            rw [h]
          | some u2 => simp [get_oauth_userinfo, hO, hR, hS, hF, hG] at h

/-- Every failure of get_key is either InvalidKeyError or the error of a
failed refresh. -/
theorem get_key_error_kinds (env : Env) (kid : Option String) (st : St) (e : PyError)
    (h : (get_key env kid st).1 = .error e) :
    e = PyError.invalidKey ∨ refreshResult env = .error e := by
  by_cases hMiss : (lookupKid st.jwks kid).isEmpty
  · cases hR : refreshResult env with
    | error e2 =>
      simp [get_key, get_keys, hMiss, hR] at h
      right
      rw [h]
    | ok ks =>
      by_cases hks : ks.isEmpty
      · simp [get_key, get_keys, hMiss, hR, hks] at h
        left
        rw [h]
      · by_cases hl : (lookupKid ks kid).isEmpty
        · simp [get_key, get_keys, hMiss, hR, hks, hl] at h
          left
          rw [h]
        · simp [get_key, get_keys, hMiss, hR, hks, hl] at h
  · simp [get_key, hMiss] at h

/-- authenticate_token never fails with InvalidAudienceError: its failure
kinds are InvalidTokenError, ExpiredSignatureError, InvalidKeyError and
connection-level errors. -/
theorem authenticate_token_not_invalidAudience (env : Env) (ts : TokenString) (st : St)
    (e : PyError) (h : (authenticate_token env ts st).1 = .error e) :
    e ≠ PyError.invalidAudience := by
  cases hO : env.auth_settings.OIDC_ENABLED with
  | false => simp [authenticate_token, hO] at h
  | true =>
    cases ts with
    | malformedJWS raw =>
      simp [authenticate_token, hO] at h
      rw [← h]
      simp
    | legacy raw =>
      rcases hu : get_oauth_userinfo env ⟨raw, none⟩ st with ⟨r, st1⟩
      cases r with
      | ok v => simp [authenticate_token, hO, hu] at h
      | error e2 =>
        simp [authenticate_token, hO, hu] at h
        rw [← h]
        exact userinfoRemote_not_invalidAudience env e2
          (get_oauth_userinfo_error_remote env ⟨raw, none⟩ st e2 (by rw [hu]))
    | structured raw hdr payload sigKid =>
      rcases hk : get_key env hdr.kid st with ⟨r, st1⟩
      cases r with
      | error e2 =>
        simp [authenticate_token, hO, hk] at h
        rw [← h]
        rcases get_key_error_kinds env hdr.kid st e2 (by rw [hk]) with h1 | h1
        · rw [h1]
          simp
        · exact refreshResult_not_invalidAudience env e2 h1
      | ok key =>
        cases hd : joseDecode payload sigKid key env.auth_settings.AUDIENCE
            env.auth_settings.VERIFY_AUDIENCE env.now with
        | ok cl => simp [authenticate_token, hO, hk, hd] at h
        | expiredSignature =>
          simp [authenticate_token, hO, hk, hd] at h
          rw [← h]
          simp
        | jwtError m =>
          simp [authenticate_token, hO, hk, hd] at h
          rw [← h]
          simp

/-- Claim C8: every permission denial raised by validate_token is
signaled with InvalidAudienceError (the NotPermitted kind), and that kind
is distinct from every failure kind authenticate_token can raise: every
validate_token failure is either the NotPermitted denial or an identity
resolution failure, which is itself never InvalidAudienceError, while
authenticate_token never fails with InvalidAudienceError at all. -/
theorem c8_denial_distinct_from_auth_failures :
    (∀ env ts st e2, (authenticate_token env ts st).1 = .error e2 →
        e2 ≠ PyError.invalidAudience) ∧
    (∀ env token scopes request st e2,
        (validate_token env token scopes request st).1 = .error e2 →
        e2 = PyError.invalidAudience ∨
          ((get_oauth_userinfo env token st).1 = .error e2 ∧
            e2 ≠ PyError.invalidAudience)) := by
  constructor
  · exact fun env ts st e2 h => authenticate_token_not_invalidAudience env ts st e2 h
  · intro env token scopes request st e2 h
    by_cases hP : env.auth_settings.PERMISSIONS_DISABLED
    · simp [validate_token, hP] at h
    · by_cases hS : scopesContainAlwaysPermitted scopes
      · simp [validate_token, hP, hS] at h
      · by_cases hE : env.auth_settings.PERMISSIONS.isEmpty
        · simp [validate_token, hP, hS, hE] at h
          left
          rw [h]
        · rcases hu : get_oauth_userinfo env token st with ⟨r, st1⟩
          cases r with
          | error e3 =>
            simp [validate_token, hP, hS, hE, hu] at h
            right
            constructor
            · rw [h]
            · rw [← h]
              exact userinfoRemote_not_invalidAudience env e3
                (get_oauth_userinfo_error_remote env token st e3 (by rw [hu]))
          | ok v =>
            by_cases hPerm :
                env.getPermissionsUser env.auth_settings.PERMISSIONS v = []
            · simp [validate_token, hP, hS, hE, hu, hPerm] at h
              left
              rw [h]
            · by_cases hChk : env.checkApiCallPermitted request
                  (env.getPermissionsUser env.auth_settings.PERMISSIONS v)
              · simp [validate_token, hP, hS, hE, hu, hPerm, hChk] at h
              · simp [validate_token, hP, hS, hE, hu, hPerm, hChk] at h
                left
                rw [h]

/-- Witness for C8: a malformed token fails authentication with
InvalidTokenError, which is not InvalidAudienceError, and a denial with
the empty rule table is exactly InvalidAudienceError. -/
theorem c8_witness :
    PyError.invalidToken "JWSError" ≠ PyError.invalidAudience ∧
    (PyError.invalidAudience = PyError.invalidAudience ∨
      ((get_oauth_userinfo envDefault tokLegacy stEmpty).1
          = .error PyError.invalidAudience ∧
        PyError.invalidAudience ≠ PyError.invalidAudience)) :=
  ⟨c8_denial_distinct_from_auth_failures.1 envDefault (.malformedJWS "bad token") stEmpty
      (PyError.invalidToken "JWSError") rfl,
   c8_denial_distinct_from_auth_failures.2 envDefault tokLegacy none "GET devices" stEmpty
      PyError.invalidAudience rfl⟩

/-- Claim C9: every failing key-set refresh leaves the in-memory
key-identifier mapping unchanged: the store keeps the snapshot installed
before the refresh attempt. -/
theorem c9_failed_refresh_preserves_store (env : Env) (st : St) (e : PyError)
    (hFail : (get_keys env st).1 = .error e) :
    (get_keys env st).2.jwks = st.jwks := by
  cases hR : refreshResult env with
  | error e2 => simp [get_keys, hR]
  | ok ks => simp [get_keys, hR] at hFail

/-- Witness for C9: an unreachable provider fails the refresh and the
store still holds exactly the key k1. -/
theorem c9_witness :
    (get_keys envUnreachable stWithK1).2.jwks = stWithK1.jwks :=
  c9_failed_refresh_preserves_store envUnreachable stWithK1
    PyError.requestsConnectionError rfl

/-- Claim C10: the fixed built-in identity differs between the two bypass
paths: with JWT checking disabled get_jwt_identity returns "admin", with
provider-based verification disabled get_oauth_identity returns "Admin",
and the two strings are not equal. -/
theorem c10_bypass_identities_differ (env : Env) (token : Token) (st : St) :
    get_jwt_identity { env with api_settings := ⟨false⟩ } = "admin" ∧
    (get_oauth_identity
        { env with auth_settings := { env.auth_settings with OIDC_ENABLED := false } }
        token st).1 = .ok "Admin" ∧
    ("admin" : String) ≠ "Admin" :=
  ⟨rfl, rfl, by decide⟩

end CnaasSecurity
